import Mathlib

/-!
Verification development for the bench-press training application
(`src/FINAL_s.py` and `src/コード更新版_s.py`).

The pure logic and the stateful training-week workflow are shallowly
embedded below.  Python floats are modelled by exact rationals `ℚ`,
Python ints by `ℤ`/`ℕ`, Python dicts that are only read and written
pointwise by total functions into `Option`, and `date` values by their
day number `ℤ` (so `timedelta(days=i)` is `+ i` and `(a - b).days` is
`a - b`).  External collaborators (the OpenAI plan/review generation)
are modelled as explicit parameters carrying their result.
-/

set_option maxHeartbeats 1000000

namespace Bench100

/-! ## Python numeric primitives -/

/-- Python `int(q)` on a float/rational: truncation toward zero. -/
def pyTrunc (q : ℚ) : ℤ := if 0 ≤ q then ⌊q⌋ else ⌈q⌉

/-- Python `round(q)` (no digits argument): round half to even. -/
def pyRound (q : ℚ) : ℤ :=
  let f := ⌊q⌋
  let r := q - f
  if r < 1/2 then f
  else if 1/2 < r then f + 1
  else if f % 2 = 0 then f else f + 1

/-! ## ProgressModel (`estimate_weeks_to_target`, both source files, identical) -/

/-- `TARGET_1RM = 100` (goal bench press weight, kg). -/
def TARGET_1RM : ℚ := 100

/-- The weekly gain rate computed inside `estimate_weeks_to_target`:
`max(0.3, 0.6 + (sessions_per_week - 3) * 0.15)`. -/
def weekly_gain (sessions_per_week : ℤ) : ℚ :=
  max (3/10) (6/10 + ((sessions_per_week : ℚ) - 3) * (15/100))

/-- `estimate_weeks_to_target` from `src/FINAL_s.py` lines 113-123
(= `src/コード更新版_s.py` lines 84-94):
`0` if the target is reached, otherwise
`max(1, int((need_kg / weekly_gain) + 0.999))`. -/
def estimate_weeks_to_target (current_1rm : ℚ) (sessions_per_week : ℤ) : ℤ :=
  if TARGET_1RM ≤ current_1rm then 0
  else
    let need_kg := TARGET_1RM - current_1rm
    let weeks := pyTrunc (need_kg / weekly_gain sessions_per_week + 999/1000)
    max 1 weeks

/-- Modelled from the claim wording of C3 (NOT from the source): the same
function but with a true ceiling `⌈need / rate⌉` instead of the source's
`int(quotient + 0.999)`.  Used to compare the claim against the code. -/
def estimate_weeks_claimed (current_1rm : ℚ) (sessions_per_week : ℤ) : ℤ :=
  if (100:ℚ) ≤ current_1rm then 0
  else max 1 ⌈(100 - current_1rm) / max (3/10) (6/10 + ((sessions_per_week : ℚ) - 3) * (15/100))⌉

/-! ## Ideal pace curve (`page_progress_and_roadmap`, `src/FINAL_s.py` 1036-1055,
`src/コード更新版_s.py` 668-691).  The source computes the curve inline with
the fixed target `TARGET_1RM`; `target_value` abstracts that constant, the
call site instantiates it with `TARGET_1RM`.  Dates are day numbers. -/

def ideal_pace_curve (start_date target_date : ℤ) (start_value target_value : ℚ) :
    List (ℤ × ℚ) :=
  let td := if target_date ≤ start_date then start_date + 1 else target_date
  let num0 := td - start_date
  let num_days := if num0 < 1 then 1 else num0
  (List.range (num_days.toNat + 1)).map
    (fun (i : ℕ) => (start_date + (i : ℤ),
               start_value + (target_value - start_value) * ((i : ℚ) / (num_days : ℚ))))

/-! ## Deterministic PlanGenerator (`generate_week_plan`,
`src/コード更新版_s.py` lines 97-191) -/

structure PlanItem where
  id : String
  session_label : String
  name : String
  detail : String
  muscles : String
deriving Repr, DecidableEq

/-- The fixed ten-item catalogue built for one session
(the `items_for_session` list in the source body of `generate_week_plan`). -/
def items_for_session (week_index session : ℕ) (base_1rm : ℚ) : List PlanItem :=
  let session_label := toString (week_index + 1) ++ "週目・" ++ toString session ++ "回目"
  let main_weight := pyRound (base_1rm * (8/10))
  let vol_weight := pyRound (base_1rm * (7/10))
  let tech_weight := pyRound (base_1rm * (6/10))
  let row_weight := pyRound (base_1rm * (6/10))
  let ohp_weight := pyRound (base_1rm * (5/10))
  [ { id := "w" ++ toString week_index ++ "_s" ++ toString session ++ "_bench_main",
      session_label := session_label,
      name := "ベンチプレス（メインセット）",
      detail := toString main_weight ++ "kg x 5回",
      muscles := "大胸筋・三角筋前部・上腕三頭筋・体幹・下半身（脚）" },
    { id := "w" ++ toString week_index ++ "_s" ++ toString session ++ "_bench_vol",
      session_label := session_label,
      name := "ベンチプレス（ボリュームセット）",
      detail := toString vol_weight ++ "kg x 8回 × 3セット",
      muscles := "大胸筋・三角筋前部・上腕三頭筋・体幹・下半身（脚）" },
    { id := "w" ++ toString week_index ++ "_s" ++ toString session ++ "_bench_tech",
      session_label := session_label,
      name := "ベンチプレス（フォーム練習）",
      detail := toString tech_weight ++ "kg x 10回 × 2セット",
      muscles := "大胸筋・三角筋前部・上腕三頭筋・体幹" },
    { id := "w" ++ toString week_index ++ "_s" ++ toString session ++ "_incline",
      session_label := session_label,
      name := "インクラインダンベルプレス",
      detail := "RPE 7〜8 で 8〜10回 × 3セット",
      muscles := "大胸筋上部・三角筋前部・上腕三頭筋" },
    { id := "w" ++ toString week_index ++ "_s" ++ toString session ++ "_row",
      session_label := session_label,
      name := "バーベル（またはダンベル）ローイング",
      detail := toString row_weight ++ "kg 相当 x 8〜10回 × 3セット",
      muscles := "広背筋・僧帽筋・三角筋後部・体幹" },
    { id := "w" ++ toString week_index ++ "_s" ++ toString session ++ "_ohp",
      session_label := session_label,
      name := "ショルダープレス（バーベル or ダンベル）",
      detail := toString ohp_weight ++ "kg 相当 x 6〜8回 × 3セット",
      muscles := "三角筋前部・側部・上腕三頭筋・体幹" },
    { id := "w" ++ toString week_index ++ "_s" ++ toString session ++ "_triceps",
      session_label := session_label,
      name := "ディップス / トライセプスエクステンション",
      detail := "自重 or 軽負荷で10〜12回 × 3セット",
      muscles := "上腕三頭筋・大胸筋下部・前腕" },
    { id := "w" ++ toString week_index ++ "_s" ++ toString session ++ "_pushup",
      session_label := session_label,
      name := "プッシュアップ（腕立て伏せ）",
      detail := "限界 -2回 を目安に 2〜3セット",
      muscles := "大胸筋・三角筋前部・上腕三頭筋・体幹" },
    { id := "w" ++ toString week_index ++ "_s" ++ toString session ++ "_core",
      session_label := session_label,
      name := "フロントプランク",
      detail := "40〜60秒 × 2〜3セット",
      muscles := "体幹（腹直筋・腹横筋・腹斜筋・脊柱起立筋）" },
    { id := "w" ++ toString week_index ++ "_s" ++ toString session ++ "_legs",
      session_label := session_label,
      name := "ブルガリアンスクワット",
      detail := "左右各 8〜10回 × 2〜3セット",
      muscles := "下半身（大腿四頭筋・ハムストリングス・臀筋）" } ]

/-- `generate_week_plan(current_1rm, sessions_per_week, week_index)`:
`progression = 1.0 + week_index * 0.02`, `base_1rm = current_1rm * progression`,
then one ten-item catalogue per `session in range(1, sessions_per_week + 1)`. -/
def generate_week_plan (current_1rm : ℚ) (sessions_per_week : ℕ) (week_index : ℕ) :
    List PlanItem :=
  let progression : ℚ := 1 + (week_index : ℚ) * (2/100)
  let base_1rm := current_1rm * progression
  (List.range sessions_per_week).flatMap
    (fun k => items_for_session week_index (k + 1) base_1rm)

/-- The fixed order of exercise names in each session's catalogue. -/
def planNames : List String :=
  [ "ベンチプレス（メインセット）",
    "ベンチプレス（ボリュームセット）",
    "ベンチプレス（フォーム練習）",
    "インクラインダンベルプレス",
    "バーベル（またはダンベル）ローイング",
    "ショルダープレス（バーベル or ダンベル）",
    "ディップス / トライセプスエクステンション",
    "プッシュアップ（腕立て伏せ）",
    "フロントプランク",
    "ブルガリアンスクワット" ]

/-! ## Training-week state machine (`src/FINAL_s.py`)

Session state fields touched by the modelled operations.  The `initial_info`
dict is flattened into its fields; `records`, `day_review_done` and
`last_review` are nested dicts read and written pointwise, modelled as
total functions with `Option`/default values. -/

/-- One saved record (`records[week][day][name]` entry, `src/FINAL_s.py` 816-822). -/
structure Record where
  weight : ℤ
  reps : ℤ
  sets : ℤ
  note : String
  is_max : Bool
deriving Repr, DecidableEq

/-- One item of an AI weekly plan (`menu` entries of the parsed JSON). -/
structure MenuItem where
  name : String
  sets : ℤ
  reps : ℤ
  weight : ℤ
  is_max : Bool
deriving Repr, DecidableEq

/-- One day of an AI weekly plan (`{"day": ..., "menu": [...]}`). -/
structure DayPlan where
  day : String
  menu : List MenuItem
deriving Repr, DecidableEq

/-- `records` : week → day → exercise name → record. -/
abbrev Records := ℤ → String → String → Option Record

/-- Fields of `st.session_state.profile` read by the modelled operations
(only `current_1rm` is ever read by them). -/
structure Profile where
  current_1rm : ℚ
deriving Repr, DecidableEq

/-- One `training_logs` entry (`log_training_snapshot`, `src/FINAL_s.py` 126-141). -/
structure TrainingLogEntry where
  date : String
  current_1rm : ℚ
  note : String
deriving Repr, DecidableEq

/-- The slice of `st.session_state` used by the training-week workflow. -/
structure AppState where
  profile : Option Profile
  initial_info_goal_bp : ℤ
  initial_info_freq : ℕ
  initial_info_weekdays : List String
  weekly_plan : List (List DayPlan)
  records : Records
  current_week : ℤ
  training_started : Bool
  max_test_result : ℚ
  goal_achieved_pending : Bool
  max_registered_not_achieved : Bool
  day_review_done : ℤ → String → Bool
  last_review : ℤ → String → Option String
  next_week_config_pending : Bool
  training_logs : List TrainingLogEntry

/-- Inner loop of `check_all_records_saved_for_week` over one day's `menu`:
early-returns the first missing `【day】name`, otherwise threads the
`(max_measurement_done, max_weight)` accumulator (updated on week-4
`is_max` items from the recorded weight). -/
def scanMenu (week_num : ℤ) (recorded : String → String → Option Record) (day : String) :
    List MenuItem → Bool × ℤ → Except String (Bool × ℤ)
  | [], acc => .ok acc
  | item :: rest, acc =>
    match recorded day item.name with
    | none => .error ("【" ++ day ++ "】" ++ item.name)
    | some r =>
      if week_num = 4 ∧ item.is_max = true then
        scanMenu week_num recorded day rest (true, r.weight)
      else
        scanMenu week_num recorded day rest acc

/-- Outer loop of `check_all_records_saved_for_week` over the week's day plans. -/
def scanDays (week_num : ℤ) (recorded : String → String → Option Record) :
    List DayPlan → Bool × ℤ → Except String (Bool × ℤ)
  | [], acc => .ok acc
  | dp :: rest, acc =>
    match scanMenu week_num recorded dp.day dp.menu acc with
    | .error e => .error e
    | .ok acc2 => scanDays week_num recorded rest acc2

/-- `check_all_records_saved_for_week` (`src/FINAL_s.py` 390-421): returns
`(False, "【day】name")` on the first missing record, else `(True, "完了")`;
as a side effect, on week 4 with a recorded max-test item it sets
`max_test_result = int(max_weight)` and exactly one of
`goal_achieved_pending` / `max_registered_not_achieved` by comparing
against `initial_info["goal_bp"]`. -/
def check_all_records_saved_for_week (week_num : ℤ) (week_plan : List DayPlan)
    (s : AppState) : (Bool × String) × AppState :=
  match scanDays week_num (s.records week_num) week_plan (false, 0) with
  | .error msg => ((false, msg), s)
  | .ok (maxDone, maxW) =>
    if week_num = 4 ∧ maxDone = true then
      if (s.initial_info_goal_bp : ℚ) ≤ (maxW : ℚ) then
        ((true, "完了"),
         { s with max_test_result := (maxW : ℚ),
                  goal_achieved_pending := true,
                  max_registered_not_achieved := false })
      else
        ((true, "完了"),
         { s with max_test_result := (maxW : ℚ),
                  goal_achieved_pending := false,
                  max_registered_not_achieved := true })
    else ((true, "完了"), s)

/-- Inner loop of `check_all_records_saved_for_day` over the matching day's menu. -/
def checkDayMenu (recorded : String → Option Record) (day : String) :
    List MenuItem → Bool × String
  | [] => (true, "完了")
  | item :: rest =>
    match recorded item.name with
    | none => (false, "【" ++ day ++ "】" ++ item.name)
    | some _ => checkDayMenu recorded day rest

/-- `check_all_records_saved_for_day` (`src/FINAL_s.py` 371-387): finds the
first day plan whose `day` matches and checks its menu against the records. -/
def check_all_records_saved_for_day (week_num : ℤ) (day : String)
    (week_plan : List DayPlan) (records : Records) : Bool × String :=
  match week_plan.find? (fun dp => dp.day == day) with
  | some dp => checkDayMenu (fun n => records week_num day n) day dp.menu
  | none => (false, "該当日がメニューに見つかりません")

/-- The save-button handler of `page_training_week`
(`src/FINAL_s.py` 803-825): forces `reps = sets = 1` on a week-4 `is_max`
item, otherwise stores the inputs; upserts
`records[week_number][day][name]`. -/
def save_record (week_number : ℤ) (day : String) (item : MenuItem)
    (w_input r_input s_input : ℤ) (note_input : String) (s : AppState) : AppState :=
  let final_reps : ℤ := if week_number = 4 ∧ item.is_max = true then 1 else r_input
  let final_sets : ℤ := if week_number = 4 ∧ item.is_max = true then 1 else s_input
  { s with records := fun w d n =>
      if w = week_number ∧ d = day ∧ n = item.name then
        some { weight := w_input, reps := final_reps, sets := final_sets,
               note := note_input, is_max := item.is_max }
      else s.records w d n }

/-- The day-review button handler of `page_training_week`
(`src/FINAL_s.py` 828-840): the button is only offered when
`is_day_fully_saved and not is_day_reviewed`; it stores the generated
review text (an external collaborator result, passed as `review_text`)
and marks the day reviewed.  Otherwise nothing happens. -/
def complete_day_review (week_number : ℤ) (day : String) (week_plan : List DayPlan)
    (review_text : String) (s : AppState) : AppState :=
  let is_day_reviewed := s.day_review_done week_number day
  let is_day_fully_saved :=
    (check_all_records_saved_for_day week_number day week_plan s.records).1
  if is_day_fully_saved && !is_day_reviewed then
    { s with
      last_review := fun w d =>
        if w = week_number ∧ d = day then some review_text else s.last_review w d,
      day_review_done := fun w d =>
        if w = week_number ∧ d = day then true else s.day_review_done w d }
  else s

/-- The next-week configuration submit handler of `page_training_week`
(`src/FINAL_s.py` 642-681).  `gen_result` carries the outcome of
`generate_ai_week_plan` (`none` = collaborator unavailable / call error /
unparseable reply; Python treats an empty list as falsy too).  Note the
source updates `initial_info["freq"]` and `initial_info["weekdays"]`
BEFORE invoking the generator. -/
def page_next_week_config_submit (freq_next : ℕ) (weekdays_next : List String)
    (gen_result : Option (List DayPlan)) (s : AppState) : AppState :=
  if weekdays_next.length ≠ freq_next then s
  else
    let is_cycle_restart := s.current_week = 0
    let next_week_num : ℤ := if is_cycle_restart then 1 else s.current_week + 1
    let s1 := { s with initial_info_freq := freq_next,
                       initial_info_weekdays := weekdays_next }
    match gen_result with
    | some new_plan =>
      if new_plan ≠ [] then
        { s1 with
          current_week := next_week_num,
          weekly_plan := if is_cycle_restart then [new_plan] else s1.weekly_plan ++ [new_plan],
          records := if is_cycle_restart then (fun _ _ _ => none) else s1.records,
          day_review_done := fun _ _ => false,
          last_review := fun _ _ => none,
          next_week_config_pending := false,
          training_started := false,
          goal_achieved_pending := false,
          max_registered_not_achieved := false }
      else s1
    | none => s1

/-- The goal-achieved acknowledgement button (`src/FINAL_s.py` 882-886):
stores the raised goal, sets the week sentinel `0` and requests the
next-cycle configuration. -/
def acknowledge_goal_achieved (new_goal : ℤ) (s : AppState) : AppState :=
  { s with initial_info_goal_bp := new_goal,
           current_week := 0,
           next_week_config_pending := true }

/-- The goal-missed acknowledgement button (`src/FINAL_s.py` 891-894). -/
def acknowledge_goal_missed (s : AppState) : AppState :=
  { s with current_week := 0, next_week_config_pending := true }

/-- `log_training_snapshot` (`src/FINAL_s.py` 126-141): no-op on an empty
profile, otherwise appends one entry to `training_logs`.  The date string
(`date.today().isoformat()` or the passed `log_date`) is supplied by the
environment as `d`. -/
def log_training_snapshot (note : String) (d : String) (s : AppState) : AppState :=
  match s.profile with
  | none => s
  | some p =>
      { s with training_logs :=
          s.training_logs ++ [{ date := d, current_1rm := p.current_1rm, note := note }] }

end Bench100

namespace Bench100

/-! ## Helper lemmas -/

lemma pyTrunc_of_nonneg {q : ℚ} (h : 0 ≤ q) : pyTrunc q = ⌊q⌋ := if_pos h

lemma pyTrunc_mono_of_nonneg {a b : ℚ} (h0 : 0 ≤ a) (h : a ≤ b) :
    pyTrunc a ≤ pyTrunc b := by
  rw [pyTrunc_of_nonneg h0, pyTrunc_of_nonneg (h0.trans h)]
  exact Int.floor_le_floor h

lemma weekly_gain_pos (s : ℤ) : (0 : ℚ) < weekly_gain s :=
  lt_of_lt_of_le (by norm_num) (le_max_left _ _)

lemma weekly_gain_mono {s t : ℤ} (h : s ≤ t) : weekly_gain s ≤ weekly_gain t := by
  unfold weekly_gain
  refine max_le_max le_rfl ?_
  have hc : ((s : ℚ) - 3) ≤ ((t : ℚ) - 3) := by
    have h2 : (s : ℚ) ≤ (t : ℚ) := by exact_mod_cast h
    linarith
  nlinarith

/-- C3 counterexample: at `current_1rm = 99.3997`, `sessions_per_week = 3` the
quotient is `1.0005`, whose fractional part lies in `(0, 0.001)`:
`int(1.0005 + 0.999) = 1`, while the claimed `max(1, ceil(1.0005)) = 2`. -/
theorem c3_counterexample :
    estimate_weeks_to_target (993997/10000) 3 = 1
    ∧ estimate_weeks_claimed (993997/10000) 3 = 2 := by
  constructor
  · norm_num [estimate_weeks_to_target, weekly_gain, pyTrunc, TARGET_1RM]
  · norm_num [estimate_weeks_claimed, Int.ceil_eq_iff]

/-- C3 (amended): `estimate_weeks_to_target` returns 0 when `current_1rm ≥ 100`;
otherwise it returns `max(1, ⌊(100 - current_1rm) / max(0.3, 0.6 +
(sessions_per_week - 3) * 0.15) + 0.999⌋)` — i.e. the quotient is rounded up
exactly when its fractional part is at least 0.001, not a true ceiling; in
particular for `current_1rm = 70`, `sessions_per_week = 3` it returns 50. -/
theorem c3_estimate_weeks_amended (c : ℚ) (s : ℤ) :
    estimate_weeks_to_target c s =
      (if 100 ≤ c then 0
       else max 1 ⌊(100 - c) / max (3/10) (6/10 + ((s : ℚ) - 3) * (15/100)) + 999/1000⌋)
    ∧ estimate_weeks_to_target 70 3 = 50 := by
  refine ⟨?_, by norm_num [estimate_weeks_to_target, weekly_gain, pyTrunc, TARGET_1RM]⟩
  unfold estimate_weeks_to_target TARGET_1RM weekly_gain
  split_ifs with h
  · rfl
  · have hc : (0 : ℚ) < 100 - c := by
      have := not_le.mp h
      linarith
    have hg : (0 : ℚ) < max (3/10) (6/10 + ((s : ℚ) - 3) * (15/100)) :=
      lt_of_lt_of_le (by norm_num) (le_max_left _ _)
    have hq : (0 : ℚ) ≤ (100 - c) / max (3/10) (6/10 + ((s : ℚ) - 3) * (15/100)) + 999/1000 := by
      have := div_pos hc hg
      linarith
    show max 1 (pyTrunc ((100 - c) / max (3/10) (6/10 + ((s : ℚ) - 3) * (15/100)) + 999/1000))
        = max 1 ⌊(100 - c) / max (3/10) (6/10 + ((s : ℚ) - 3) * (15/100)) + 999/1000⌋
    rw [pyTrunc_of_nonneg hq]

/-- C9: for every fixed `current_1rm`, the weekly gain rate is at least
0.3 kg/week, and the returned week count is monotonically non-increasing in
`sessions_per_week` (so `sessions_per_week = 5` yields a count ≤ the count
for `sessions_per_week = 3`). -/
theorem c9_weeks_antitone_in_sessions (c : ℚ) (s t : ℤ) (hst : s ≤ t) :
    (3/10 : ℚ) ≤ weekly_gain s
    ∧ estimate_weeks_to_target c t ≤ estimate_weeks_to_target c s := by
  refine ⟨le_max_left _ _, ?_⟩
  unfold estimate_weeks_to_target
  split_ifs with h
  · exact le_refl 0
  · have hc : (0 : ℚ) < TARGET_1RM - c := by
      have := not_le.mp h
      linarith
    have hdiv : (TARGET_1RM - c) / weekly_gain t ≤ (TARGET_1RM - c) / weekly_gain s :=
      div_le_div_of_nonneg_left (le_of_lt hc) (weekly_gain_pos s) (weekly_gain_mono hst)
    have hnn : (0 : ℚ) ≤ (TARGET_1RM - c) / weekly_gain t + 999/1000 := by
      have := div_pos hc (weekly_gain_pos t)
      linarith
    exact max_le_max le_rfl (pyTrunc_mono_of_nonneg hnn (by linarith))

/-- C9 witness: at `current_1rm = 70`, sessions 3 vs 5. -/
theorem c9_witness :
    (3/10 : ℚ) ≤ weekly_gain 3
    ∧ estimate_weeks_to_target 70 5 ≤ estimate_weeks_to_target 70 3 :=
  c9_weeks_antitone_in_sessions 70 3 5 (by decide)

end Bench100

namespace Bench100

/-- C6: the ideal pace curve has one point per calendar day from start to
(effective) target inclusive, its first value is `start_value`, its last
value is `target_value`, consecutive values are strictly increasing whenever
`target_value > start_value`, and for `target_date ≤ start_date` the curve is
the one computed for `start_date + 1`. -/
theorem c6_ideal_pace_curve (sd td : ℤ) (sv tv : ℚ) :
    (ideal_pace_curve sd td sv tv).length = ((if td ≤ sd then sd + 1 else td) - sd).toNat + 1
    ∧ (∀ (i : ℕ) (a : ℤ × ℚ), (ideal_pace_curve sd td sv tv)[i]? = some a → a.1 = sd + i)
    ∧ (ideal_pace_curve sd td sv tv)[0]? = some (sd, sv)
    ∧ (ideal_pace_curve sd td sv tv)[((if td ≤ sd then sd + 1 else td) - sd).toNat]?
        = some (sd + ((if td ≤ sd then sd + 1 else td) - sd), tv)
    ∧ (sv < tv → (ideal_pace_curve sd td sv tv).Chain' (fun a b => a.2 < b.2))
    ∧ (td ≤ sd → ideal_pace_curve sd td sv tv = ideal_pace_curve sd (sd + 1) sv tv) := by
  set D : ℤ := (if td ≤ sd then sd + 1 else td) - sd with hDdef
  have hD1 : (1 : ℤ) ≤ D := by rw [hDdef]; split_ifs <;> omega
  have hD0 : ¬ (D < 1) := by omega
  have hDnat : ((D.toNat : ℤ)) = D := Int.toNat_of_nonneg (by omega)
  have hDQ : (0 : ℚ) < (D : ℚ) := by exact_mod_cast (by omega : (0:ℤ) < D)
  have hcurve : ideal_pace_curve sd td sv tv
      = (List.range (D.toNat + 1)).map
          (fun (i : ℕ) => (sd + (i : ℤ), sv + (tv - sv) * ((i : ℚ) / (D : ℚ)))) := by
    simp only [ideal_pace_curve, ← hDdef]
    simp only [if_neg hD0]
  refine ⟨?_, ?_, ?_, ?_, ?_, ?_⟩
  · rw [hcurve]; simp
  · intro i a ha
    rw [hcurve] at ha
    rw [List.getElem?_map] at ha
    have hi : i < D.toNat + 1 := by
      by_contra hge
      rw [List.getElem?_eq_none (by simpa using Nat.le_of_not_lt hge)] at ha
      simp at ha
    rw [List.getElem?_range hi] at ha
    simp only [Option.map_some', Option.some_inj] at ha
    rw [← ha]
  · rw [hcurve]
    rw [List.getElem?_map, List.getElem?_range (Nat.succ_pos _)]
    simp
  · rw [hcurve]
    rw [List.getElem?_map, List.getElem?_range (Nat.lt_succ_self _)]
    simp only [Option.map_some', Option.some_inj]
    have hcast : ((D.toNat : ℚ)) = (D : ℚ) := by exact_mod_cast congrArg (fun z : ℤ => (z : ℚ)) hDnat
    refine Prod.ext ?_ ?_
    · simp [hDnat]
    · show sv + (tv - sv) * ((D.toNat : ℚ) / (D : ℚ)) = tv
      rw [hcast, div_self (ne_of_gt hDQ), mul_one]
      ring
  · intro hlt
    rw [hcurve]
    rw [List.chain'_map]
    rw [show D.toNat + 1 = (D.toNat).succ from rfl, List.chain'_range_succ]
    intro m hm
    have hmq : ((m : ℚ)) < ((m.succ : ℕ) : ℚ) := by push_cast; linarith
    have hdiv : ((m : ℚ)) / (D : ℚ) < (((m.succ : ℕ) : ℚ)) / (D : ℚ) :=
      div_lt_div_of_pos_right hmq hDQ
    exact add_lt_add_left (mul_lt_mul_of_pos_left hdiv (sub_pos.mpr hlt)) sv
  · intro h
    have h2 : ¬ (sd + 1 ≤ sd) := by omega
    simp only [ideal_pace_curve, if_pos h, if_neg h2]

/-- C6 witness: the curve for start day 0, target day 2, values 0 → 100. -/
theorem c6_witness :
    (ideal_pace_curve 0 2 0 100)[2]? = some (2, 100)
    ∧ (ideal_pace_curve 0 2 0 100).Chain' (fun a b => a.2 < b.2) := by
  have h := c6_ideal_pace_curve 0 2 0 100
  refine ⟨?_, h.2.2.2.2.1 (by norm_num)⟩
  have h4 := h.2.2.2.1
  norm_num at h4
  exact h4

end Bench100

namespace Bench100

lemma flatMap10_length {α : Type} (f : α → List PlanItem) (hf : ∀ x, (f x).length = 10) :
    ∀ l : List α, (l.flatMap f).length = 10 * l.length := by
  intro l
  induction l with
  | nil => simp
  | cons a t ih =>
    rw [List.flatMap_cons, List.length_append, hf a, ih, List.length_cons]
    ring

lemma getElem?_drop_eq {α : Type} :
    ∀ (l : List α) (n m : ℕ), (l.drop n)[m]? = l[n + m]? := by
  intro l
  induction l with
  | nil => intro n m; simp
  | cons a t ih =>
    intro n m
    cases n with
    | zero => simp
    | succ n =>
      rw [List.drop_succ_cons, ih, show n + 1 + m = (n + m) + 1 by omega,
        List.getElem?_cons_succ]

lemma flatMap10_block {α : Type} (f : α → List PlanItem) (hf : ∀ x, (f x).length = 10) :
    ∀ (l : List α) (k : ℕ) (x : α), l[k]? = some x →
      ((l.flatMap f).drop (10 * k)).take 10 = f x := by
  intro l
  induction l with
  | nil => intro k x h; simp at h
  | cons a t ih =>
    intro k x h
    cases k with
    | zero =>
      rw [List.getElem?_cons_zero, Option.some_inj] at h
      subst h
      rw [List.flatMap_cons, Nat.mul_zero, List.drop_zero]
      exact List.take_left' (hf _)
    | succ k =>
      rw [List.getElem?_cons_succ] at h
      rw [List.flatMap_cons, show 10 * (k + 1) = 10 + 10 * k by ring,
        ← List.drop_drop, List.drop_left' (hf a)]
      exact ih k x h

/-- C7: for every benchmark ≥ 0, session count in [1,7] and week index, the
deterministic generator totally produces `10 * sessions` items, each session
block carries the same fixed exercise catalogue, and the main / volume /
technique set weights are `round(benchmark * (1 + 0.02 * week) * 0.8)`,
`… * 0.7`, `… * 0.6` respectively (rendered into the detail strings). -/
theorem c7_generate_week_plan (b : ℚ) (s w : ℕ)
    (hb : 0 ≤ b) (hs1 : 1 ≤ s) (hs7 : s ≤ 7) :
    (generate_week_plan b s w).length = 10 * s
    ∧ ∀ k, k < s →
        (((generate_week_plan b s w).drop (10 * k)).take 10).map PlanItem.name = planNames
        ∧ ((generate_week_plan b s w)[10 * k]?).map PlanItem.detail
            = some (toString (pyRound (b * (1 + (2/100) * (w : ℚ)) * (8/10))) ++ "kg x 5回")
        ∧ ((generate_week_plan b s w)[10 * k + 1]?).map PlanItem.detail
            = some (toString (pyRound (b * (1 + (2/100) * (w : ℚ)) * (7/10))) ++ "kg x 8回 × 3セット")
        ∧ ((generate_week_plan b s w)[10 * k + 2]?).map PlanItem.detail
            = some (toString (pyRound (b * (1 + (2/100) * (w : ℚ)) * (6/10))) ++ "kg x 10回 × 2セット") := by
  have hplan : generate_week_plan b s w
      = (List.range s).flatMap
          (fun k => items_for_session w (k + 1) (b * (1 + (w : ℚ) * (2/100)))) := rfl
  have hf10 : ∀ x : ℕ, (items_for_session w (x + 1) (b * (1 + (w : ℚ) * (2/100)))).length = 10 :=
    fun x => rfl
  constructor
  · rw [hplan, flatMap10_length _ hf10, List.length_range]
  · intro k hk
    have hblock : ((generate_week_plan b s w).drop (10 * k)).take 10
        = items_for_session w (k + 1) (b * (1 + (w : ℚ) * (2/100))) := by
      rw [hplan]
      exact flatMap10_block _ hf10 _ k k (List.getElem?_range hk)
    have haux : ∀ j, j < 10 → (generate_week_plan b s w)[10 * k + j]?
        = (items_for_session w (k + 1) (b * (1 + (w : ℚ) * (2/100))))[j]? := by
      intro j hj
      rw [← getElem?_drop_eq, ← List.getElem?_take_of_lt hj, hblock]
    have h8 : b * (1 + (w : ℚ) * (2/100)) * (8/10) = b * (1 + (2/100) * (w : ℚ)) * (8/10) := by
      ring
    have h7 : b * (1 + (w : ℚ) * (2/100)) * (7/10) = b * (1 + (2/100) * (w : ℚ)) * (7/10) := by
      ring
    have h6 : b * (1 + (w : ℚ) * (2/100)) * (6/10) = b * (1 + (2/100) * (w : ℚ)) * (6/10) := by
      ring
    refine ⟨by rw [hblock]; rfl, ?_, ?_, ?_⟩
    · have := haux 0 (by norm_num)
      rw [Nat.add_zero] at this
      rw [this, ← h8]
      rfl
    · rw [haux 1 (by norm_num), ← h7]
      rfl
    · rw [haux 2 (by norm_num), ← h6]
      rfl

/-- C7 witness: benchmark 100, one session, week index 0. -/
theorem c7_witness :
    (generate_week_plan 100 1 0).length = 10 * 1
    ∧ ∀ k, k < 1 →
        (((generate_week_plan 100 1 0).drop (10 * k)).take 10).map PlanItem.name = planNames
        ∧ ((generate_week_plan 100 1 0)[10 * k]?).map PlanItem.detail
            = some (toString (pyRound ((100 : ℚ) * (1 + (2/100) * ((0 : ℕ) : ℚ)) * (8/10))) ++ "kg x 5回")
        ∧ ((generate_week_plan 100 1 0)[10 * k + 1]?).map PlanItem.detail
            = some (toString (pyRound ((100 : ℚ) * (1 + (2/100) * ((0 : ℕ) : ℚ)) * (7/10))) ++ "kg x 8回 × 3セット")
        ∧ ((generate_week_plan 100 1 0)[10 * k + 2]?).map PlanItem.detail
            = some (toString (pyRound ((100 : ℚ) * (1 + (2/100) * ((0 : ℕ) : ℚ)) * (6/10))) ++ "kg x 10回 × 2セット") :=
  c7_generate_week_plan 100 1 0 (by norm_num) (by norm_num) (by norm_num)

end Bench100

namespace Bench100

/-! ## Lemmas about the week-completeness scan -/

/-- Whether an `Except` result is `ok`. -/
def isOkB {ε α : Type} : Except ε α → Bool
  | .ok _ => true
  | .error _ => false

lemma scanMenu_isOk (wk : ℤ) (rcd : String → String → Option Record) (day : String) :
    ∀ (menu : List MenuItem) (acc : Bool × ℤ),
      isOkB (scanMenu wk rcd day menu acc)
        = menu.all (fun it => (rcd day it.name).isSome) := by
  intro menu
  induction menu with
  | nil => intro acc; rfl
  | cons it rest ih =>
    intro acc
    rw [List.all_cons]
    cases h : rcd day it.name with
    | none => simp [scanMenu, isOkB, h]
    | some r =>
      simp only [scanMenu, h]
      split_ifs with hcond
      · rw [ih]; simp [h]
      · rw [ih]; simp [h]

lemma scanDays_isOk (wk : ℤ) (rcd : String → String → Option Record) :
    ∀ (plan : List DayPlan) (acc : Bool × ℤ),
      isOkB (scanDays wk rcd plan acc)
        = plan.all (fun dp => dp.menu.all (fun it => (rcd dp.day it.name).isSome)) := by
  intro plan
  induction plan with
  | nil => intro acc; rfl
  | cons dp rest ih =>
    intro acc
    rw [List.all_cons]
    cases h : scanMenu wk rcd dp.day dp.menu acc with
    | error e =>
      have hm := scanMenu_isOk wk rcd dp.day dp.menu acc
      rw [h] at hm
      simp only [scanDays, h]
      rw [← hm]
      rfl
    | ok acc2 =>
      have hm := scanMenu_isOk wk rcd dp.day dp.menu acc
      rw [h] at hm
      simp only [scanDays, h]
      rw [ih, ← hm]
      rfl

lemma scanMenu_ok_fst (wk : ℤ) (rcd : String → String → Option Record) (day : String) :
    ∀ (menu : List MenuItem) (acc : Bool × ℤ) (b2 : Bool) (w2 : ℤ),
      scanMenu wk rcd day menu acc = .ok (b2, w2) → b2 = true →
      acc.1 = true ∨ ∃ it ∈ menu, it.is_max = true ∧ (rcd day it.name).isSome = true := by
  intro menu
  induction menu with
  | nil =>
    intro acc b2 w2 h hb
    left
    simp only [scanMenu, Except.ok.injEq] at h
    rw [h]
    exact hb
  | cons it rest ih =>
    intro acc b2 w2 h hb
    cases hr : rcd day it.name with
    | none => simp [scanMenu, hr] at h
    | some r =>
      by_cases hg : wk = 4 ∧ it.is_max = true
      · right
        exact ⟨it, List.mem_cons_self it rest, hg.2, by rw [hr]; rfl⟩
      · simp only [scanMenu, hr, if_neg hg] at h
        rcases ih acc b2 w2 h hb with h1 | ⟨it2, hmem, h2⟩
        · left; exact h1
        · right; exact ⟨it2, List.mem_cons_of_mem _ hmem, h2⟩

lemma scanDays_ok_fst (wk : ℤ) (rcd : String → String → Option Record) :
    ∀ (plan : List DayPlan) (acc : Bool × ℤ) (b2 : Bool) (w2 : ℤ),
      scanDays wk rcd plan acc = .ok (b2, w2) → b2 = true →
      acc.1 = true
      ∨ ∃ dp ∈ plan, ∃ it ∈ dp.menu, it.is_max = true ∧ (rcd dp.day it.name).isSome = true := by
  intro plan
  induction plan with
  | nil =>
    intro acc b2 w2 h hb
    left
    simp only [scanDays, Except.ok.injEq] at h
    rw [h]
    exact hb
  | cons dp rest ih =>
    intro acc b2 w2 h hb
    cases hm : scanMenu wk rcd dp.day dp.menu acc with
    | error e => simp [scanDays, hm] at h
    | ok acc2 =>
      simp only [scanDays, hm] at h
      rcases ih acc2 b2 w2 h hb with h1 | ⟨dp2, hdp2, rest2⟩
      · rcases scanMenu_ok_fst wk rcd dp.day dp.menu acc acc2.1 acc2.2 (by rw [hm]) h1 with
          h2 | ⟨it, hit, h3⟩
        · left; exact h2
        · right; exact ⟨dp, List.mem_cons_self dp rest, it, hit, h3⟩
      · right; exact ⟨dp2, List.mem_cons_of_mem _ hdp2, rest2⟩

/-- The weight stored for `(d, n)` (0 when absent, only used when present). -/
def getW (rcd : String → String → Option Record) (d n : String) : ℤ :=
  match rcd d n with
  | some r => r.weight
  | none => 0

/-- One max-test accumulator update of the week-4 scan. -/
def maxStep (rcd : String → String → Option Record) (acc : Bool × ℤ)
    (p : String × String) : Bool × ℤ :=
  (true, getW rcd p.1 p.2)

/-- The `(day, name)` pairs of the `is_max` items of a weekly plan, in scan order. -/
def maxRecPairs (plan : List DayPlan) : List (String × String) :=
  plan.flatMap
    (fun dp => (dp.menu.filter (fun it => it.is_max)).map (fun it => (dp.day, it.name)))

lemma scanMenu_fold (rcd : String → String → Option Record) (day : String) :
    ∀ (menu : List MenuItem) (acc : Bool × ℤ),
      (∀ it ∈ menu, (rcd day it.name).isSome = true) →
      scanMenu 4 rcd day menu acc
        = .ok (((menu.filter (fun it => it.is_max)).map
            (fun it => (day, it.name))).foldl (maxStep rcd) acc) := by
  intro menu
  induction menu with
  | nil => intro acc h; rfl
  | cons it rest ih =>
    intro acc h
    have hit : (rcd day it.name).isSome = true := h it (List.mem_cons_self it rest)
    cases hr : rcd day it.name with
    | none => rw [hr] at hit; simp at hit
    | some r =>
      by_cases hm : it.is_max = true
      · simp only [scanMenu, hr]
        split_ifs with hcond
        · rw [ih _ (fun x hx => h x (List.mem_cons_of_mem _ hx))]
          rw [List.filter_cons_of_pos hm, List.map_cons, List.foldl_cons]
          have hst : maxStep rcd acc (day, it.name) = (true, r.weight) := by
            simp [maxStep, getW, hr]
          rw [hst]
        · exact absurd ⟨trivial, hm⟩ hcond
      · simp only [scanMenu, hr]
        split_ifs with hcond
        · exact absurd hcond.2 hm
        · rw [ih _ (fun x hx => h x (List.mem_cons_of_mem _ hx))]
          rw [List.filter_cons_of_neg hm]

lemma scanDays_fold (rcd : String → String → Option Record) :
    ∀ (plan : List DayPlan) (acc : Bool × ℤ),
      (∀ dp ∈ plan, ∀ it ∈ dp.menu, (rcd dp.day it.name).isSome = true) →
      scanDays 4 rcd plan acc = .ok ((maxRecPairs plan).foldl (maxStep rcd) acc) := by
  intro plan
  induction plan with
  | nil => intro acc h; rfl
  | cons dp rest ih =>
    intro acc h
    have h1 := scanMenu_fold rcd dp.day dp.menu acc
      (fun it hit => h dp (List.mem_cons_self dp rest) it hit)
    simp only [scanDays, h1]
    rw [ih _ (fun d hd it hit => h d (List.mem_cons_of_mem _ hd) it hit)]
    rw [show maxRecPairs (dp :: rest)
        = ((dp.menu.filter (fun it => it.is_max)).map (fun it => (dp.day, it.name)))
          ++ maxRecPairs rest from by simp [maxRecPairs]]
    rw [List.foldl_append]

end Bench100

namespace Bench100

/-- C1: for a week-4 plan with all items recorded whose unique `is_max` item
is `(d0, n0)` with Record `r`, evaluating the week-completeness check reports
success and sets the benchmark to `r.weight`, with exactly one of the
goal-achieved / goal-missed flags set, achieved iff `goal_bp ≤ r.weight`. -/
theorem c1_week4_max_test (plan : List DayPlan) (s : AppState) (d0 n0 : String) (r : Record)
    (hall : ∀ dp ∈ plan, ∀ it ∈ dp.menu, (s.records 4 dp.day it.name).isSome = true)
    (hmax : maxRecPairs plan = [(d0, n0)])
    (hrec : s.records 4 d0 n0 = some r) :
    (check_all_records_saved_for_week 4 plan s).1 = (true, "完了")
    ∧ (check_all_records_saved_for_week 4 plan s).2.max_test_result = ((r.weight : ℤ) : ℚ)
    ∧ ((check_all_records_saved_for_week 4 plan s).2.goal_achieved_pending = true
        ↔ s.initial_info_goal_bp ≤ r.weight)
    ∧ ((check_all_records_saved_for_week 4 plan s).2.max_registered_not_achieved = true
        ↔ r.weight < s.initial_info_goal_bp)
    ∧ (check_all_records_saved_for_week 4 plan s).2.max_registered_not_achieved
        = !(check_all_records_saved_for_week 4 plan s).2.goal_achieved_pending := by
  have hscan := scanDays_fold (s.records 4) plan (false, 0) hall
  rw [hmax] at hscan
  have hW : getW (s.records 4) d0 n0 = r.weight := by simp [getW, hrec]
  rw [List.foldl_cons, List.foldl_nil] at hscan
  unfold check_all_records_saved_for_week
  rw [hscan]
  show _ ∧ _
  rw [maxStep] at *
  simp only [hW]
  rw [if_pos (⟨trivial, trivial⟩ : True ∧ True)]
  by_cases hcomp : (s.initial_info_goal_bp : ℚ) ≤ ((r.weight : ℤ) : ℚ)
  · rw [if_pos hcomp]
    have hle : s.initial_info_goal_bp ≤ r.weight := by exact_mod_cast hcomp
    refine ⟨rfl, rfl, ?_, ?_, rfl⟩
    · exact ⟨fun _ => hle, fun _ => rfl⟩
    · constructor
      · intro hfalse; simp at hfalse
      · intro hlt; exact absurd hle (not_le.mpr hlt)
  · rw [if_neg hcomp]
    have hlt : r.weight < s.initial_info_goal_bp := by
      have := not_le.mp hcomp
      exact_mod_cast this
    refine ⟨rfl, rfl, ?_, ?_, rfl⟩
    · constructor
      · intro hfalse; simp at hfalse
      · intro hle; exact absurd hle (not_le.mpr hlt)
    · exact ⟨fun _ => hlt, fun _ => rfl⟩

/-- C10: for a week other than 4, and for week 4 when no `is_max` item of the
plan has a Record, the week-completeness check leaves the whole session state
unchanged, and its boolean result says exactly whether every item of every
day of the plan has a Record. -/
theorem c10_check_week_frame (wk : ℤ) (plan : List DayPlan) (s : AppState)
    (h : wk ≠ 4
      ∨ ∀ dp ∈ plan, ∀ it ∈ dp.menu, it.is_max = true → s.records wk dp.day it.name = none) :
    (check_all_records_saved_for_week wk plan s).2 = s
    ∧ ((check_all_records_saved_for_week wk plan s).1.1 = true
        ↔ ∀ dp ∈ plan, ∀ it ∈ dp.menu, (s.records wk dp.day it.name).isSome = true) := by
  have hok := scanDays_isOk wk (s.records wk) plan (false, 0)
  have hfst : (check_all_records_saved_for_week wk plan s).1.1
      = isOkB (scanDays wk (s.records wk) plan (false, 0)) := by
    unfold check_all_records_saved_for_week
    split
    · rename_i msg heq
      rw [heq]
      rfl
    · rename_i maxDone maxW heq
      rw [heq]
      split_ifs <;> rfl
  constructor
  · unfold check_all_records_saved_for_week
    split
    · rfl
    · rename_i maxDone maxW heq
      by_cases hg : wk = 4 ∧ maxDone = true
      · exfalso
        rcases h with h4 | hnone
        · exact h4 hg.1
        · rcases scanDays_ok_fst wk (s.records wk) plan (false, 0) maxDone maxW heq hg.2 with
            hacc | ⟨dp, hdp, it, hit, hm, hsome⟩
          · simp at hacc
          · rw [hnone dp hdp it hit hm] at hsome
            simp at hsome
      · rw [if_neg hg]
  · rw [hfst, hok]
    simp [List.all_eq_true]

/-! ## Concrete example data for the witnesses -/

def exMaxItem : MenuItem :=
  { name := "BP", sets := 1, reps := 1, weight := 100, is_max := true }

def exPlanW4 : List DayPlan := [{ day := "Mon", menu := [exMaxItem] }]

def exRecordMax : Record :=
  { weight := 102, reps := 1, sets := 1, note := "", is_max := true }

def exRecordsW4 : Records :=
  fun w d n => if w = 4 ∧ d = "Mon" ∧ n = "BP" then some exRecordMax else none

def exState : AppState :=
  { profile := some { current_1rm := 70 },
    initial_info_goal_bp := 100,
    initial_info_freq := 3,
    initial_info_weekdays := ["Mon", "Wed", "Fri"],
    weekly_plan := [],
    records := fun _ _ _ => none,
    current_week := 1,
    training_started := true,
    max_test_result := 70,
    goal_achieved_pending := false,
    max_registered_not_achieved := false,
    day_review_done := fun _ _ => false,
    last_review := fun _ _ => none,
    next_week_config_pending := false,
    training_logs := [] }

def exStateW4 : AppState := { exState with records := exRecordsW4, current_week := 4 }

/-- C1 witness: a one-day week-4 plan whose only item is the max test,
recorded at 102 kg against goal 100. -/
theorem c1_witness :
    (check_all_records_saved_for_week 4 exPlanW4 exStateW4).1 = (true, "完了")
    ∧ (check_all_records_saved_for_week 4 exPlanW4 exStateW4).2.max_test_result
        = (((102 : ℤ) : ℤ) : ℚ)
    ∧ ((check_all_records_saved_for_week 4 exPlanW4 exStateW4).2.goal_achieved_pending = true
        ↔ exStateW4.initial_info_goal_bp ≤ (102 : ℤ))
    ∧ ((check_all_records_saved_for_week 4 exPlanW4 exStateW4).2.max_registered_not_achieved = true
        ↔ (102 : ℤ) < exStateW4.initial_info_goal_bp)
    ∧ (check_all_records_saved_for_week 4 exPlanW4 exStateW4).2.max_registered_not_achieved
        = !(check_all_records_saved_for_week 4 exPlanW4 exStateW4).2.goal_achieved_pending :=
  c1_week4_max_test exPlanW4 exStateW4 "Mon" "BP" exRecordMax
    (by decide) (by decide) (by decide)

/-- C10 witness: a non-week-4 check on the example state changes nothing. -/
theorem c10_witness :
    (check_all_records_saved_for_week 2 exPlanW4 exState).2 = exState
    ∧ ((check_all_records_saved_for_week 2 exPlanW4 exState).1.1 = true
        ↔ ∀ dp ∈ exPlanW4, ∀ it ∈ dp.menu, (exState.records 2 dp.day it.name).isSome = true) :=
  c10_check_week_frame 2 exPlanW4 exState (Or.inl (by decide))

end Bench100

namespace Bench100

/-- C4: saving a record and reading it back from that day's records returns
exactly the saved weight, reps, sets and note — except that on a week-4
`is_max` item the stored reps and sets are forced to 1 while weight and note
are stored as given. -/
theorem c4_record_round_trip (week : ℤ) (day : String) (item : MenuItem)
    (w r sets_in : ℤ) (note : String) (plan : List DayPlan) (s : AppState)
    (hplan : ∃ dp ∈ plan, dp.day = day ∧ item ∈ dp.menu) :
    (save_record week day item w r sets_in note s).records week day item.name
      = some { weight := w,
               reps := if week = 4 ∧ item.is_max = true then 1 else r,
               sets := if week = 4 ∧ item.is_max = true then 1 else sets_in,
               note := note,
               is_max := item.is_max } := by
  simp [save_record]

/-- C4 witness: a week-4 max-test save with inputs reps 5, sets 3 stores
reps 1, sets 1, weight and note as given. -/
theorem c4_witness :
    (save_record 4 "Mon" exMaxItem 102 5 3 "pr" exState).records 4 "Mon" "BP"
      = some { weight := 102, reps := 1, sets := 1, note := "pr", is_max := true } := by
  have h := c4_record_round_trip 4 "Mon" exMaxItem 102 5 3 "pr" exPlanW4 exState
    ⟨{ day := "Mon", menu := [exMaxItem] }, by decide, by decide, by decide⟩
  simpa using h

/-- Inner-loop characterisation of `check_all_records_saved_for_day`. -/
lemma checkDayMenu_fst (rcd : String → Option Record) (day : String) :
    ∀ menu : List MenuItem,
      (checkDayMenu rcd day menu).1 = menu.all (fun it => (rcd it.name).isSome) := by
  intro menu
  induction menu with
  | nil => rfl
  | cons it rest ih =>
    cases h : rcd it.name with
    | none => simp [checkDayMenu, h]
    | some r => simp [checkDayMenu, h, ih]

/-- C5: a day's reviewed flag can become true only in a step at whose start
every item of that day's plan had a Record; once a day is reviewed, a second
review attempt is rejected and the whole state (including the stored review
text) is unchanged. -/
theorem c5_day_review (w : ℤ) (d : String) (plan : List DayPlan) (txt : String)
    (s : AppState) :
    ((complete_day_review w d plan txt s).day_review_done w d = true →
      s.day_review_done w d = false →
      ∃ dp, plan.find? (fun p => p.day == d) = some dp
        ∧ ∀ it ∈ dp.menu, (s.records w d it.name).isSome = true)
    ∧ (s.day_review_done w d = true → complete_day_review w d plan txt s = s) := by
  constructor
  · intro h1 h2
    by_cases hg : ((check_all_records_saved_for_day w d plan s.records).1
        && !(s.day_review_done w d)) = true
    · have hfst : (check_all_records_saved_for_day w d plan s.records).1 = true :=
        (Bool.and_eq_true_iff.mp hg).1
      cases hfind : plan.find? (fun p => p.day == d) with
      | none =>
        rw [check_all_records_saved_for_day, hfind] at hfst
        simp at hfst
      | some dp =>
        refine ⟨dp, rfl, ?_⟩
        rw [check_all_records_saved_for_day, hfind, checkDayMenu_fst] at hfst
        intro it hit
        exact (List.all_eq_true.mp hfst) it hit
    · exfalso
      simp only [complete_day_review] at h1
      rw [if_neg hg] at h1
      rw [h1] at h2
      simp at h2
  · intro h2
    simp only [complete_day_review]
    rw [h2]
    simp

def exStateReviewed : AppState :=
  { exState with day_review_done := fun w d => w == 1 && d == "Mon" }

/-- C5 witness: a fully recorded day admits a review, and a reviewed day
rejects a second review unchanged. -/
theorem c5_witness :
    (∃ dp, exPlanW4.find? (fun p => p.day == "Mon") = some dp
        ∧ ∀ it ∈ dp.menu, (exStateW4.records 4 "Mon" it.name).isSome = true)
    ∧ complete_day_review 1 "Mon" [] "great" exStateReviewed = exStateReviewed := by
  constructor
  · exact (c5_day_review 4 "Mon" exPlanW4 "great" exStateW4).1 (by decide) (by decide)
  · exact (c5_day_review 1 "Mon" [] "great" exStateReviewed).2 (by decide)

/-- C2 counterexample: with the week-complete example state (`freq = 3`,
weekdays Mon/Wed/Fri), submitting the next-week form with 2 sessions
Tue/Thu and a failing plan generation leaves the stored configuration
CHANGED (`freq` becomes 2), refuting "no observable state changes". -/
theorem c2_counterexample :
    (page_next_week_config_submit 2 ["Tue", "Thu"] none exState).initial_info_freq
      ≠ exState.initial_info_freq := by
  decide

/-- C2 (amended): when plan generation fails (no reply or an empty, falsy
plan list), the week number, stored plans, records, review flags, pending
flags and training log are unchanged — but the stored configuration
(`initial_info` freq and weekday list) has already been overwritten with the
submitted values whenever the frequency check passes; on a frequency
mismatch nothing at all changes. -/
theorem c2_amended_no_transition (freq : ℕ) (wd : List String)
    (gen : Option (List DayPlan)) (s : AppState)
    (hfail : gen = none ∨ gen = some []) :
    (page_next_week_config_submit freq wd gen s).current_week = s.current_week
    ∧ (page_next_week_config_submit freq wd gen s).weekly_plan = s.weekly_plan
    ∧ (page_next_week_config_submit freq wd gen s).records = s.records
    ∧ (page_next_week_config_submit freq wd gen s).day_review_done = s.day_review_done
    ∧ (page_next_week_config_submit freq wd gen s).last_review = s.last_review
    ∧ (page_next_week_config_submit freq wd gen s).next_week_config_pending
        = s.next_week_config_pending
    ∧ (page_next_week_config_submit freq wd gen s).training_started = s.training_started
    ∧ (page_next_week_config_submit freq wd gen s).goal_achieved_pending
        = s.goal_achieved_pending
    ∧ (page_next_week_config_submit freq wd gen s).max_registered_not_achieved
        = s.max_registered_not_achieved
    ∧ (page_next_week_config_submit freq wd gen s).max_test_result = s.max_test_result
    ∧ (page_next_week_config_submit freq wd gen s).training_logs = s.training_logs
    ∧ (wd.length = freq →
        (page_next_week_config_submit freq wd gen s).initial_info_freq = freq
        ∧ (page_next_week_config_submit freq wd gen s).initial_info_weekdays = wd)
    ∧ (wd.length ≠ freq → page_next_week_config_submit freq wd gen s = s) := by
  by_cases hlen : wd.length ≠ freq
  · have hres : page_next_week_config_submit freq wd gen s = s := by
      simp only [page_next_week_config_submit, if_pos hlen]
    rw [hres]
    exact ⟨rfl, rfl, rfl, rfl, rfl, rfl, rfl, rfl, rfl, rfl, rfl,
      fun he => absurd he hlen, fun _ => rfl⟩
  · have hres : page_next_week_config_submit freq wd gen s
        = { s with initial_info_freq := freq, initial_info_weekdays := wd } := by
      rcases hfail with hg | hg <;> subst hg <;>
        simp [page_next_week_config_submit, if_neg hlen]
    rw [hres]
    exact ⟨rfl, rfl, rfl, rfl, rfl, rfl, rfl, rfl, rfl, rfl, rfl,
      fun _ => ⟨rfl, rfl⟩, fun hne => absurd (not_not.mp hlen) hne⟩

/-- C2 amended-claim witness: the failing submission from the counterexample
state satisfies the amended frame conditions. -/
theorem c2_amended_witness :
    (page_next_week_config_submit 2 ["Tue", "Thu"] none exState).current_week
        = exState.current_week
    ∧ (page_next_week_config_submit 2 ["Tue", "Thu"] none exState).weekly_plan
        = exState.weekly_plan
    ∧ (page_next_week_config_submit 2 ["Tue", "Thu"] none exState).records = exState.records
    ∧ (page_next_week_config_submit 2 ["Tue", "Thu"] none exState).day_review_done
        = exState.day_review_done
    ∧ (page_next_week_config_submit 2 ["Tue", "Thu"] none exState).last_review
        = exState.last_review
    ∧ (page_next_week_config_submit 2 ["Tue", "Thu"] none exState).next_week_config_pending
        = exState.next_week_config_pending
    ∧ (page_next_week_config_submit 2 ["Tue", "Thu"] none exState).training_started
        = exState.training_started
    ∧ (page_next_week_config_submit 2 ["Tue", "Thu"] none exState).goal_achieved_pending
        = exState.goal_achieved_pending
    ∧ (page_next_week_config_submit 2 ["Tue", "Thu"] none exState).max_registered_not_achieved
        = exState.max_registered_not_achieved
    ∧ (page_next_week_config_submit 2 ["Tue", "Thu"] none exState).max_test_result
        = exState.max_test_result
    ∧ (page_next_week_config_submit 2 ["Tue", "Thu"] none exState).training_logs
        = exState.training_logs
    ∧ ((["Tue", "Thu"] : List String).length = 2 →
        (page_next_week_config_submit 2 ["Tue", "Thu"] none exState).initial_info_freq = 2
        ∧ (page_next_week_config_submit 2 ["Tue", "Thu"] none exState).initial_info_weekdays
            = ["Tue", "Thu"])
    ∧ ((["Tue", "Thu"] : List String).length ≠ 2 →
        page_next_week_config_submit 2 ["Tue", "Thu"] none exState = exState) :=
  c2_amended_no_transition 2 ["Tue", "Thu"] none exState (Or.inl rfl)

/-- C8: the training log is append-only across every modelled operation
(record saves, day reviews, the week check, next-week configuration, cycle
acknowledgements and snapshot logging, which appends); acknowledging a
goal-achieved or goal-missed cycle end resets the week index to the restart
sentinel 0 without touching the log, and the subsequent successful restart
configuration starts the new cycle with empty records, still leaving the
training log exactly as it was. -/
theorem c8_training_log_append_only :
    (∀ (s : AppState) (wk : ℤ) (day : String) (item : MenuItem) (w r sn : ℤ) (note : String),
        (save_record wk day item w r sn note s).training_logs = s.training_logs)
    ∧ (∀ (s : AppState) (wk : ℤ) (day : String) (plan : List DayPlan) (txt : String),
        (complete_day_review wk day plan txt s).training_logs = s.training_logs)
    ∧ (∀ (s : AppState) (wk : ℤ) (plan : List DayPlan),
        ((check_all_records_saved_for_week wk plan s).2).training_logs = s.training_logs)
    ∧ (∀ (s : AppState) (f : ℕ) (wd : List String) (g : Option (List DayPlan)),
        (page_next_week_config_submit f wd g s).training_logs = s.training_logs)
    ∧ (∀ (s : AppState) (g : ℤ),
        (acknowledge_goal_achieved g s).training_logs = s.training_logs
        ∧ (acknowledge_goal_achieved g s).current_week = 0)
    ∧ (∀ s : AppState,
        (acknowledge_goal_missed s).training_logs = s.training_logs
        ∧ (acknowledge_goal_missed s).current_week = 0)
    ∧ (∀ (s : AppState) (note d : String), ∃ t,
        (log_training_snapshot note d s).training_logs = s.training_logs ++ t)
    ∧ (∀ (s : AppState) (g : ℤ) (f : ℕ) (wd : List String) (p : List DayPlan),
        p ≠ [] → wd.length = f →
        (page_next_week_config_submit f wd (some p) (acknowledge_goal_achieved g s)).records
            = (fun _ _ _ => none)
        ∧ (page_next_week_config_submit f wd (some p)
            (acknowledge_goal_achieved g s)).training_logs = s.training_logs) := by
  refine ⟨?_, ?_, ?_, ?_, ?_, ?_, ?_, ?_⟩
  · intro s wk day item w r sn note
    rfl
  · intro s wk day plan txt
    simp only [complete_day_review]
    split <;> rfl
  · intro s wk plan
    unfold check_all_records_saved_for_week
    split
    · rfl
    · split_ifs <;> rfl
  · intro s f wd g
    simp only [page_next_week_config_submit]
    split
    · rfl
    · cases g with
      | none => rfl
      | some p => split <;> first | rfl | (split_ifs <;> rfl)
  · intro s g
    exact ⟨rfl, rfl⟩
  · intro s
    exact ⟨rfl, rfl⟩
  · intro s note d
    cases hp : s.profile with
    | none => exact ⟨[], by simp [log_training_snapshot, hp]⟩
    | some p =>
      exact ⟨[{ date := d, current_1rm := p.current_1rm, note := note }],
        by simp [log_training_snapshot, hp]⟩
  · intro s g f wd p hp hlen
    simp only [page_next_week_config_submit, acknowledge_goal_achieved,
      if_neg (not_not.mpr hlen)]
    rw [if_pos hp]
    constructor
    · simp
    · rfl

/-- C8 witness: acknowledging an achieved goal at 105 kg and then submitting
a successful one-day restart configuration empties the records and leaves the
log untouched. -/
theorem c8_witness :
    (page_next_week_config_submit 1 ["Tue"] (some exPlanW4)
        (acknowledge_goal_achieved 105 exState)).records = (fun _ _ _ => none)
    ∧ (page_next_week_config_submit 1 ["Tue"] (some exPlanW4)
        (acknowledge_goal_achieved 105 exState)).training_logs = exState.training_logs :=
  c8_training_log_append_only.2.2.2.2.2.2.2 exState 105 1 ["Tue"] exPlanW4
    (by decide) (by decide)

end Bench100
